import Mathlib

/-!
Verification of the tendermint-mpc-validator signer against its
natural-language specification.

The Go sources (src/internal/signer/SignState.go, RemoteSigner.go,
src/cmd/signer/main.go and the serialization / cosigner-key files) are
shallowly embedded below.  Machine integers (int64, int8, int) become
`Int`; Go byte slices that are only inspected through the amino/JSON
codecs become an inductive `Bytes` universe that records how a byte
string decodes; a nil Go slice is `Option.none`.  Panics and log.Fatal
calls become explicit constructors of result types.  External effects
(file system writes, network reads/writes, the underlying validator)
are passed in as explicit parameters or oracle results.
-/

namespace Signer

/-! ## Step constants (SignState.go lines 16-21) -/

def stepNone : Int := 0
def stepPropose : Int := 1
def stepPrevote : Int := 2
def stepPrecommit : Int := 3

/-! ## Canonical payloads (tendermint types, treated as data carriers)

`SignedMsgType` numeric codes from tendermint: Prevote = 1,
Precommit = 2, Proposal = 32. -/

def prevoteType : Int := 1
def precommitType : Int := 2
def proposalType : Int := 32

/-- tendermint `types.CanonicalVote`: carries a vote type, height, round,
block id and timestamp.  The block id is abstracted to a `Nat` tag and the
timestamp to an `Int`. -/
structure CanonicalVote where
  voteType : Int
  height : Int
  round : Int
  blockID : Nat
  timestamp : Int
deriving DecidableEq, Repr

/-- tendermint `types.CanonicalProposal`: carries a proposal type, height,
round, POL round, block id and timestamp. -/
structure CanonicalProposal where
  propType : Int
  height : Int
  round : Int
  polRound : Int
  blockID : Nat
  timestamp : Int
deriving DecidableEq, Repr

/-- `CanonicalVoteToStep` (SignState.go lines 23-32): maps a canonical
vote's type to a step, panicking on an unknown vote type. -/
inductive StepOf where
  | ok (s : Int)
  | panicked
deriving DecidableEq, Repr

def CanonicalVoteToStep (vote : CanonicalVote) : StepOf :=
  if vote.voteType = prevoteType then .ok stepPrevote
  else if vote.voteType = precommitType then .ok stepPrecommit
  else .panicked

/-! ## The byte-string universe seen through the codec

A byte string is modelled by how the amino codec decodes it.  The spec
notes that the vote and proposal encodings are not disjoint (neither is
prefix-free-compatible with the other), so a byte string may decode as a
vote, as a proposal, as both, or as neither; the JSON rendering of a
vote is a further, distinct byte string.  Encoding is deterministic and
injective (the codec is a byte-exact serializer), which the constructor
discipline below captures. -/

inductive Bytes where
  | voteBin : CanonicalVote → Bytes
  | propBin : CanonicalProposal → Bytes
  | bothBin : CanonicalVote → CanonicalProposal → Bytes
  | voteJson : CanonicalVote → Bytes
  | junk : Nat → Bytes
deriving DecidableEq, Repr

/-- `cdc.UnmarshalBinaryLengthPrefixed` into a `CanonicalVote`. -/
def unmarshalVote : Bytes → Option CanonicalVote
  | .voteBin v => some v
  | .bothBin v _ => some v
  | _ => none

/-- `cdc.UnmarshalBinaryLengthPrefixed` into a `CanonicalProposal`. -/
def unmarshalProposal : Bytes → Option CanonicalProposal
  | .propBin p => some p
  | .bothBin _ p => some p
  | _ => none

/-- `cdc.MarshalJSON` of a canonical vote. -/
def marshalVoteJson (v : CanonicalVote) : Bytes := .voteJson v

/-- `cdc.MarshalBinaryLengthPrefixed` of a canonical proposal. -/
def marshalPropBin (p : CanonicalProposal) : Bytes := .propBin p

/-- Lift of `unmarshalVote` to a possibly-nil slice (a nil slice fails to
decode). -/
def unmarshalVoteOpt : Option Bytes → Option CanonicalVote
  | none => none
  | some b => unmarshalVote b

def unmarshalProposalOpt : Option Bytes → Option CanonicalProposal
  | none => none
  | some b => unmarshalProposal b

/-! ## SignState (SignState.go lines 49-59) -/

/-- `SignState` stores signing information for high level watermark
management.  `signature` and `signBytes` are nilable Go slices, hence
`Option`; `filePath` is the runtime-only durable location. -/
structure SignState where
  height : Int
  round : Int
  step : Int
  ephemeralPublic : Option Bytes
  signature : Option Bytes
  signBytes : Option Bytes
  filePath : String
deriving DecidableEq, Repr

/-- Outcome of `CheckHRS`: `(bool, error)` in Go, plus the panic exit. -/
inductive HRSCheck where
  | ok (replay : Bool)
  | err (msg : String)
  | panicked
deriving DecidableEq, Repr

/-- `SignState.CheckHRS` (SignState.go lines 83-108), translated
branch for branch from the Go source. -/
def SignState.checkHRS (ss : SignState) (height round step : Int) : HRSCheck :=
  if ss.height > height then
    .err "height regression"
  else if ss.height = height then
    if ss.round > round then
      .err "round regression"
    else if ss.round = round then
      if ss.step > step then
        .err "step regression"
      else if ss.step = step then
        match ss.signBytes with
        | some _ =>
          match ss.signature with
          | none => .panicked
          | some _ => .ok true
        | none => .err "no SignBytes found"
      else .ok false
    else .ok false
  else .ok false

/-! Lexicographic order on (height, round, step) triples, used to state
the watermark claims. -/

def hrsLt (h1 r1 s1 h2 r2 s2 : Int) : Prop :=
  h1 < h2 ∨ (h1 = h2 ∧ (r1 < r2 ∨ (r1 = r2 ∧ s1 < s2)))

instance (h1 r1 s1 h2 r2 s2 : Int) : Decidable (hrsLt h1 r1 s1 h2 r2 s2) := by
  unfold hrsLt; infer_instance

/-! ## Timestamp-only comparison (SignState.go lines 142-193) -/

/-- Outcome of the timestamp-only comparisons: `(time.Time, bool)` in Go,
plus the panic exit taken on decode failure. -/
inductive TimeCheck where
  | ok (oldTime : Int) (same : Bool)
  | panicked
deriving DecidableEq, Repr

/-- `checkVoteOnlyDifferByTimestamp` (SignState.go lines 154-173): decode
both byte strings as canonical votes (panicking if either fails),
substitute the same placeholder time `now` into both, re-encode both with
`cdc.MarshalJSON` and compare byte-for-byte; the stored payload's original
timestamp is returned alongside. -/
def checkVoteOnlyDifferByTimestamp (lastSignBytes newSignBytes : Option Bytes)
    (now : Int) : TimeCheck :=
  match unmarshalVoteOpt lastSignBytes with
  | none => .panicked
  | some lastVote =>
    match unmarshalVoteOpt newSignBytes with
    | none => .panicked
    | some newVote =>
      let lastTime := lastVote.timestamp
      let lastVote2 := { lastVote with timestamp := now }
      let newVote2 := { newVote with timestamp := now }
      .ok lastTime (decide (marshalVoteJson newVote2 = marshalVoteJson lastVote2))

/-- `checkProposalOnlyDifferByTimestamp` (SignState.go lines 175-193):
same shape as the vote variant, decoding as canonical proposals and
re-encoding with `cdc.MarshalBinaryLengthPrefixed`. -/
def checkProposalOnlyDifferByTimestamp (lastSignBytes newSignBytes : Option Bytes)
    (now : Int) : TimeCheck :=
  match unmarshalProposalOpt lastSignBytes with
  | none => .panicked
  | some lastProposal =>
    match unmarshalProposalOpt newSignBytes with
    | none => .panicked
    | some newProposal =>
      let lastTime := lastProposal.timestamp
      let lastProposal2 := { lastProposal with timestamp := now }
      let newProposal2 := { newProposal with timestamp := now }
      .ok lastTime (decide (marshalPropBin newProposal2 = marshalPropBin lastProposal2))

/-- `SignState.OnlyDifferByTimestamp` (SignState.go lines 144-152):
dispatch on the stored step.  `tmtime.Now()` is passed in as the explicit
placeholder `now`; `time.Time{}` is time `0`. -/
def SignState.onlyDifferByTimestamp (ss : SignState) (signBytes : Option Bytes)
    (now : Int) : TimeCheck :=
  if ss.step = stepPropose then
    checkProposalOnlyDifferByTimestamp ss.signBytes signBytes now
  else if ss.step = stepPrevote ∨ ss.step = stepPrecommit then
    checkVoteOnlyDifferByTimestamp ss.signBytes signBytes now
  else
    .ok 0 false

/-! ## UnpackHRS (serialization file, lines 34-47) -/

/-- Outcome of `UnpackHRS`: `(height, round, step, err)` in Go, plus the
panic exit inherited from `CanonicalVoteToStep`. -/
inductive HRSUnpack where
  | ok (height round step : Int)
  | err
  | panicked
deriving DecidableEq, Repr

/-- `UnpackHRS`: try to decode the sign bytes as a canonical proposal
first; if that fails, as a canonical vote; error only when both fail. -/
def UnpackHRS (signBytes : Bytes) : HRSUnpack :=
  match unmarshalProposal signBytes with
  | some proposal => .ok proposal.height proposal.round stepPropose
  | none =>
    match unmarshalVote signBytes with
    | some vote =>
      match CanonicalVoteToStep vote with
      | .ok s => .ok vote.height vote.round s
      | .panicked => .panicked
    | none => .err

/-! ## Save and load (SignState.go lines 61-75 and 110-140) -/

/-- The persisted JSON rendering of a `SignState`
(`cdc.MarshalJSONIndent`): exactly the six serialized fields; the
runtime-only `filePath` is not serialized. -/
structure PersistedSignState where
  height : Int
  round : Int
  step : Int
  ephemeralPublic : Option Bytes
  signature : Option Bytes
  signBytes : Option Bytes
deriving DecidableEq, Repr

def encodeSignState (ss : SignState) : PersistedSignState :=
  { height := ss.height
  , round := ss.round
  , step := ss.step
  , ephemeralPublic := ss.ephemeralPublic
  , signature := ss.signature
  , signBytes := ss.signBytes }

/-- Outcome of `SignState.Save`: either a panic, or exactly one atomic
write (`tempfile.WriteFileAtomic`) of the full serialized state to the
state's path with the given permission bits. -/
inductive SaveOutcome where
  | panicked
  | wrote (path : String) (contents : PersistedSignState) (perm : Nat)
deriving DecidableEq, Repr

/-- `SignState.Save` (SignState.go lines 62-75): panic when the file path
is unset; otherwise hand the serialized state to the atomic temp-file
writer with mode 0600, panicking if the write fails.  `writeOk` is the
oracle for the file system's answer to the atomic write. -/
def SignState.save (ss : SignState) (writeOk : Bool) : SaveOutcome :=
  if ss.filePath = "" then .panicked
  else if writeOk then .wrote ss.filePath (encodeSignState ss) 0o600
  else .panicked

/-- Outcome of `LoadOrCreateSignState`: either a panic (propagated from
`Save`) or a returned `(SignState, error)` pair, together with the save
event performed on the reset path, if any. -/
inductive LoadCreateOutcome where
  | panicked
  | returned (state : SignState) (err : Option String) (persisted : Option SaveOutcome)
deriving DecidableEq, Repr

/-- The zero value `SignState{}` with the file path set
(SignState.go lines 136-137). -/
def emptySignState (filepath : String) : SignState :=
  { height := 0, round := 0, step := 0, ephemeralPublic := none
  , signature := none, signBytes := none, filePath := filepath }

/-- `LoadOrCreateSignState` (SignState.go lines 128-140): return the
loaded state when loading succeeded; otherwise build the empty state,
save it, and return it with a nil error.  `loadResult` is the oracle for
`LoadSignState` (file read plus JSON decode); `writeOk` the oracle for
the save. -/
def LoadOrCreateSignState (filepath : String)
    (loadResult : Except String SignState) (writeOk : Bool) : LoadCreateOutcome :=
  match loadResult with
  | .ok existing => .returned existing none none
  | .error _ =>
    let state := emptySignState filepath
    match state.save writeOk with
    | .panicked => .panicked
    | .wrote p c m => .returned state none (some (.wrote p c m))

/-! ## Reconnecting remote signer (RemoteSigner.go) -/

/-- `privval.RemoteSignerError`: the structured error carried inside
signing responses. -/
structure RemoteSignerError where
  code : Int
  description : String
deriving DecidableEq, Repr

/-- The privval wire messages handled by the loop.  Votes, proposals and
public keys are opaque payloads at this layer, abstracted to `Nat`
tags. -/
inductive SignerMessage where
  | pubKeyRequest
  | signVoteRequest (vote : Nat)
  | signProposalRequest (proposal : Nat)
  | pingRequest
  | pubKeyResponse (pubKey : Option Nat) (error : Option RemoteSignerError)
  | signedVoteResponse (vote : Option Nat) (error : Option RemoteSignerError)
  | signedProposalResponse (proposal : Option Nat) (error : Option RemoteSignerError)
  | pingResponse
deriving DecidableEq, Repr

/-- The `types.PrivValidator` capability used by `handleRequest`:
get-pubkey, sign-vote and sign-proposal, each either succeeding with the
(signed) payload or failing with an error string.  `SignVote` and
`SignProposal` mutate their argument in Go; here they return the signed
payload. -/
structure PrivValidator where
  getPubKey : Except String Nat
  signVote : String → Nat → Except String Nat
  signProposal : String → Nat → Except String Nat

/-- `ReconnRemoteSigner.handleRequest` (RemoteSigner.go lines 125-184):
dispatch on the request kind; a validator failure produces a response
whose error has code 0 and the error text as description.  The second
component is the `err` return of the Go function (note that the pubkey
branch shadows `err` with `:=`, so a pubkey failure leaves it nil). -/
def handleRequest (pv : PrivValidator) (chainID : String)
    (req : SignerMessage) : Option SignerMessage × Option String :=
  match req with
  | .pubKeyRequest =>
    match pv.getPubKey with
    | .error e => (some (.pubKeyResponse none (some ⟨0, e⟩)), none)
    | .ok pk => (some (.pubKeyResponse (some pk) none), none)
  | .signVoteRequest v =>
    match pv.signVote chainID v with
    | .error e => (some (.signedVoteResponse none (some ⟨0, e⟩)), some e)
    | .ok sv => (some (.signedVoteResponse (some sv) none), none)
  | .signProposalRequest p =>
    match pv.signProposal chainID p with
    | .error e => (some (.signedProposalResponse none (some ⟨0, e⟩)), some e)
    | .ok sp => (some (.signedProposalResponse (some sp) none), none)
  | .pingRequest => (some .pingResponse, none)
  | _ => (none, some "unknown msg")

/-- Result of `ReadMsg` on the connection: a framed message or an I/O
error. -/
inductive ReadOutcome where
  | ok (msg : SignerMessage)
  | ioerr
deriving DecidableEq, Repr

/-- What one iteration of the loop leaves behind: whether the connection
is still open (`conn` was not closed and set to nil), and the response
message handed to `WriteMsg`, if the iteration got that far. -/
structure LoopResult where
  connKept : Bool
  response : Option SignerMessage
deriving DecidableEq, Repr

/-- One iteration of `ReconnRemoteSigner.loop` (RemoteSigner.go lines
102-121) on an established connection: read a framed request (closing
the connection on a read error), handle it (a handler error is only
logged), write the framed response (closing the connection on a write
error).  `writeOk` is the transport oracle for `WriteMsg`. -/
def loopIteration (pv : PrivValidator) (chainID : String)
    (readRes : ReadOutcome) (writeOk : Bool) : LoopResult :=
  match readRes with
  | .ioerr => { connKept := false, response := none }
  | .ok req =>
    let res := (handleRequest pv chainID req).1
    { connKept := writeOk, response := res }

/-! ## CosignerKey serialization (the two cosigner-key files)

The repository carries two revisions of the cosigner key file: one
marshals the validator public key through the protobuf encoding
(`tmCryptoEncoding.PubKeyToProto` / `PubKeyFromProto`), the other
through the amino codec (`cdc.MarshalBinaryBare` /
`UnmarshalBinaryBare` into an ed25519 key).  RSA keys go through PKCS#1
DER in both. -/

structure RSAPrivateKey where
  key : Nat
deriving DecidableEq, Repr

structure RSAPublicKey where
  key : Nat
deriving DecidableEq, Repr

/-- The validator public key (ed25519 in this system). -/
structure TmPubKey where
  bytes : Nat
deriving DecidableEq, Repr

/-- PKCS#1 DER byte strings, modelled by what they parse as. -/
inductive DERBytes where
  | privDER : RSAPrivateKey → DERBytes
  | pubDER : RSAPublicKey → DERBytes
  | junk : Nat → DERBytes
deriving DecidableEq, Repr

def marshalPKCS1Private (k : RSAPrivateKey) : DERBytes := .privDER k

def marshalPKCS1Public (k : RSAPublicKey) : DERBytes := .pubDER k

def parsePKCS1Private : DERBytes → Option RSAPrivateKey
  | .privDER k => some k
  | _ => none

def parsePKCS1Public : DERBytes → Option RSAPublicKey
  | .pubDER k => some k
  | _ => none

/-- Encoded validator public keys: the protobuf and amino encodings are
distinct byte strings. -/
inductive PubKeyBytes where
  | protoEnc : TmPubKey → PubKeyBytes
  | aminoEnc : TmPubKey → PubKeyBytes
  | junk : Nat → PubKeyBytes
deriving DecidableEq, Repr

def protoMarshalPubKey (k : TmPubKey) : PubKeyBytes := .protoEnc k

def protoUnmarshalPubKey : PubKeyBytes → Option TmPubKey
  | .protoEnc k => some k
  | _ => none

def aminoMarshalPubKey (k : TmPubKey) : PubKeyBytes := .aminoEnc k

def aminoUnmarshalPubKey : PubKeyBytes → Option TmPubKey
  | .aminoEnc k => some k
  | _ => none

/-- `CosignerKey`: a single key for an m-of-n threshold signer. -/
structure CosignerKey where
  pubKey : TmPubKey
  shareKey : List Nat
  rsaKey : RSAPrivateKey
  id : Int
  cosignerKeys : List RSAPublicKey
deriving DecidableEq, Repr

/-- The JSON object written by `CosignerKey.MarshalJSON`: the three
byte-encoded fields plus the `Alias` passthrough fields `secret_share`
and `id`. -/
structure CosignerKeyJSON where
  rsaKey : DERBytes
  pubKey : PubKeyBytes
  cosignerKeys : List DERBytes
  shareKey : List Nat
  id : Int
deriving DecidableEq, Repr

/-- `CosignerKey.MarshalJSON`, protobuf revision: PKCS#1-marshal the RSA
private key and each peer RSA public key in order, proto-marshal the
validator public key, and emit the JSON object. -/
def CosignerKey.marshalJSONProto (k : CosignerKey) : Option CosignerKeyJSON :=
  some { rsaKey := marshalPKCS1Private k.rsaKey
       , pubKey := protoMarshalPubKey k.pubKey
       , cosignerKeys := k.cosignerKeys.map marshalPKCS1Public
       , shareKey := k.shareKey
       , id := k.id }

/-- `CosignerKey.MarshalJSON`, amino revision: identical except the
validator public key goes through `cdc.MarshalBinaryBare`. -/
def CosignerKey.marshalJSONAmino (k : CosignerKey) : Option CosignerKeyJSON :=
  some { rsaKey := marshalPKCS1Private k.rsaKey
       , pubKey := aminoMarshalPubKey k.pubKey
       , cosignerKeys := k.cosignerKeys.map marshalPKCS1Public
       , shareKey := k.shareKey
       , id := k.id }

/-- Parse each peer RSA public key in order, failing on the first bad
entry (the Go loop over `aux.CosignerKeys`). -/
def parseAllPubKeys : List DERBytes → Option (List RSAPublicKey)
  | [] => some []
  | b :: rest =>
    match parsePKCS1Public b with
    | none => none
    | some k =>
      match parseAllPubKeys rest with
      | none => none
      | some ks => some (k :: ks)

/-- `CosignerKey.UnmarshalJSON`, protobuf revision: parse the RSA private
key, proto-unmarshal the validator public key, parse the peer keys in
order, and rebuild the struct (`secret_share` and `id` pass through the
`Alias`). -/
def CosignerKey.unmarshalJSONProto (j : CosignerKeyJSON) : Option CosignerKey :=
  match parsePKCS1Private j.rsaKey with
  | none => none
  | some priv =>
    match protoUnmarshalPubKey j.pubKey with
    | none => none
    | some pk =>
      match parseAllPubKeys j.cosignerKeys with
      | none => none
      | some pubs =>
        some { pubKey := pk, shareKey := j.shareKey, rsaKey := priv
             , id := j.id, cosignerKeys := pubs }

/-- `CosignerKey.UnmarshalJSON`, amino revision: as above with the amino
decoding of the validator public key. -/
def CosignerKey.unmarshalJSONAmino (j : CosignerKeyJSON) : Option CosignerKey :=
  match parsePKCS1Private j.rsaKey with
  | none => none
  | some priv =>
    match aminoUnmarshalPubKey j.pubKey with
    | none => none
    | some pk =>
      match parseAllPubKeys j.cosignerKeys with
      | none => none
      | some pubs =>
        some { pubKey := pk, shareKey := j.shareKey, rsaKey := priv
             , id := j.id, cosignerKeys := pubs }

/-! ## Startup validation (cmd/signer/main.go) -/

structure CosignerConfig where
  id : Int
  address : String
deriving DecidableEq, Repr

structure NodeConfig where
  address : String
deriving DecidableEq, Repr

/-- The recognized configuration options consumed by `main`. -/
structure Config where
  mode : String
  privValKeyFile : String
  privValStateDir : String
  chainID : String
  cosignerThreshold : Int
  listenAddress : String
  cosigners : List CosignerConfig
  nodes : List NodeConfig
deriving DecidableEq, Repr

/-- Outcome of startup: `fatal` is a `log.Fatal` exit, `panicked` a Go
panic; both terminate.  Each outcome records how many services had been
started (`rpcServer.Start()` and each `ReconnRemoteSigner.Start()`)
before that point. -/
inductive MainOutcome where
  | fatal (reason : String) (servicesStarted : Nat)
  | panicked (servicesStarted : Nat)
  | running (servicesStarted : Nat)
deriving DecidableEq, Repr

/-- The cosigner-ID validation loop of `main` (main.go lines 116-130):
walk the configured cosigners in order and report the first ID outside
`[1..n]`, where `n` is the number of cosigner keys in the loaded key
file. -/
def firstBadCosignerID (cosigners : List CosignerConfig) (n : Nat) : Option Int :=
  match cosigners with
  | [] => none
  | c :: rest =>
    if c.id < 1 ∨ c.id > (n : Int) then some c.id
    else firstBadCosignerID rest n

/-- `main` (cmd/signer/main.go lines 60-191), from the chain-id check to
the service starts, with the external loads passed in as oracles:
`keyLoad` for `LoadCosignerKey`, `signStateLoad` for
`LoadOrCreateSignState` on the validator state file, `shareLoad` for
`LoadSignState` on the share state file.  In single mode the file
validator construction is treated as succeeding; in mpc mode the RPC
server is the first service started, followed by one reconnecting signer
per configured node. -/
def mainStartup (config : Config) (keyLoad : Except String CosignerKey)
    (signStateLoad : Except String SignState)
    (shareLoad : Except String SignState) : MainOutcome :=
  if config.chainID = "" then .fatal "chain_id option is required" 0
  else if config.mode = "single" then
    .running config.nodes.length
  else if config.mode = "mpc" then
    if config.cosignerThreshold = 0 then
      .fatal "cosigner_threshold option is required" 0
    else if config.listenAddress = "" then
      .fatal "cosigner_listen_address option is required" 0
    else
      match keyLoad with
      | .error _ => .panicked 0
      | .ok key =>
        match signStateLoad with
        | .error _ => .panicked 0
        | .ok _ =>
          match shareLoad with
          | .error _ => .panicked 0
          | .ok _ =>
            match firstBadCosignerID config.cosigners key.cosignerKeys.length with
            | some _ => .fatal "Unexpected cosigner ID" 0
            | none => .running (1 + config.nodes.length)
  else .fatal "Unsupported mode" 0

/-- A startup outcome that terminated the process before any service had
been started. -/
def MainOutcome.terminatedBeforeServing : MainOutcome → Bool
  | .fatal _ 0 => true
  | .panicked 0 => true
  | _ => false

/-! # Theorems -/

/-- C1 counterexample: the claim says `CheckHRS` returns `(true, nil)`
(Replay) exactly when the tuples are equal and the stored `SignBytes` are
non-empty.  At the stored state (0, 0, 1) with sign bytes present but a
nil signature, the tuples are equal and `SignBytes` is non-empty, yet
`CheckHRS` panics instead of returning `(true, nil)`. -/
theorem checkHRS_replay_claim_counterexample :
    (SignState.mk 0 0 1 none none (some (.junk 0)) "").signBytes ≠ none
    ∧ (SignState.mk 0 0 1 none none (some (.junk 0)) "").checkHRS 0 0 1 ≠ .ok true
    ∧ (SignState.mk 0 0 1 none none (some (.junk 0)) "").checkHRS 0 0 1 = .panicked := by
  refine ⟨by simp, by decide, by decide⟩

/-- C1 (amended): `CheckHRS` returns an error exactly when the request
tuple is lexicographically below the stored watermark or the tuples are
equal with empty stored `SignBytes`; it returns `(true, nil)` exactly
when the tuples are equal, `SignBytes` is non-empty and the stored
`Signature` is non-nil; it returns `(false, nil)` exactly when the
request is lexicographically above the watermark; and it panics exactly
when the tuples are equal with non-empty `SignBytes` but a nil
`Signature`. -/
theorem checkHRS_watermark_cases (ss : SignState) (h r s : Int) :
    (ss.checkHRS h r s = .ok true ↔
      (h = ss.height ∧ r = ss.round ∧ s = ss.step ∧
       ss.signBytes ≠ none ∧ ss.signature ≠ none))
    ∧ ((∃ m, ss.checkHRS h r s = .err m) ↔
      (hrsLt h r s ss.height ss.round ss.step ∨
       (h = ss.height ∧ r = ss.round ∧ s = ss.step ∧ ss.signBytes = none)))
    ∧ (ss.checkHRS h r s = .ok false ↔
      hrsLt ss.height ss.round ss.step h r s)
    ∧ (ss.checkHRS h r s = .panicked ↔
      (h = ss.height ∧ r = ss.round ∧ s = ss.step ∧
       ss.signBytes ≠ none ∧ ss.signature = none)) := by
  obtain ⟨H, R, S, E, sig, sb, fp⟩ := ss
  simp only [SignState.checkHRS, hrsLt]
  cases sb <;> cases sig <;> split_ifs <;> simp_all <;> omega

/-- C3: when the request tuple equals the stored watermark and the stored
`SignBytes` are non-empty but the `Signature` is nil, `CheckHRS` panics
rather than returning a value or an error. -/
theorem checkHRS_corrupt_state_panics (ss : SignState) (h r s : Int)
    (hh : h = ss.height) (hr : r = ss.round) (hs : s = ss.step)
    (hsb : ss.signBytes ≠ none) (hsig : ss.signature = none) :
    ss.checkHRS h r s = .panicked := by
  obtain ⟨H, R, S, E, sig, sb, fp⟩ := ss
  simp only at hh hr hs hsb hsig
  subst hh hr hs hsig
  obtain ⟨b, rfl⟩ := Option.ne_none_iff_exists'.mp hsb
  simp [SignState.checkHRS]

/-- C3 witness: a concrete corrupt state on which the panic fires. -/
theorem checkHRS_corrupt_state_panics_witness :
    (SignState.mk 1 2 3 none none (some (.junk 5)) "x").checkHRS 1 2 3 = .panicked :=
  checkHRS_corrupt_state_panics _ 1 2 3 rfl rfl rfl (by simp) rfl

/-- C2: when the stored step is propose, `OnlyDifferByTimestamp` decodes
both the stored and the candidate sign bytes as canonical proposals; when
it is prevote or precommit, as canonical votes.  In either case it
substitutes the same placeholder `now` into both timestamps, re-encodes
both, and returns the stored payload's original timestamp together with
a boolean that is true exactly when the re-encoded forms are byte-equal;
the old timestamp is returned whether the boolean is true or false. -/
theorem onlyDifferByTimestamp_spec (ss : SignState) (nb : Option Bytes) (now : Int) :
    (∀ lp np, ss.step = stepPropose →
      unmarshalProposalOpt ss.signBytes = some lp →
      unmarshalProposalOpt nb = some np →
      ∃ b, ss.onlyDifferByTimestamp nb now = .ok lp.timestamp b ∧
        (b = true ↔
          marshalPropBin { np with timestamp := now } =
          marshalPropBin { lp with timestamp := now }))
    ∧ (∀ lv nv, ss.step = stepPrevote ∨ ss.step = stepPrecommit →
      unmarshalVoteOpt ss.signBytes = some lv →
      unmarshalVoteOpt nb = some nv →
      ∃ b, ss.onlyDifferByTimestamp nb now = .ok lv.timestamp b ∧
        (b = true ↔
          marshalVoteJson { nv with timestamp := now } =
          marshalVoteJson { lv with timestamp := now })) := by
  constructor
  · intro lp np hstep hlast hnew
    have heq : ss.onlyDifferByTimestamp nb now =
        .ok lp.timestamp
          (decide (marshalPropBin { np with timestamp := now } =
                   marshalPropBin { lp with timestamp := now })) := by
      simp [SignState.onlyDifferByTimestamp, hstep,
        checkProposalOnlyDifferByTimestamp, hlast, hnew]
    exact ⟨_, heq, by simp⟩
  · intro lv nv hstep hlast hnew
    have hne : ss.step ≠ stepPropose := by
      rcases hstep with h | h <;> rw [h] <;> decide
    have heq : ss.onlyDifferByTimestamp nb now =
        .ok lv.timestamp
          (decide (marshalVoteJson { nv with timestamp := now } =
                   marshalVoteJson { lv with timestamp := now })) := by
      rcases hstep with h | h <;>
        simp [SignState.onlyDifferByTimestamp, hne, h, stepPropose, stepPrevote,
          stepPrecommit, checkVoteOnlyDifferByTimestamp, hlast, hnew]
    exact ⟨_, heq, by simp⟩

/-- C2 witness: the theorem applied at a propose-step state storing a
proposal and at a prevote-step state storing a vote, with concrete
candidates. -/
theorem onlyDifferByTimestamp_spec_witness :
    (∃ b, (SignState.mk 10 0 1 none (some (.junk 1))
        (some (.propBin ⟨32, 10, 0, -1, 4, 111⟩)) "").onlyDifferByTimestamp
        (some (.propBin ⟨32, 10, 0, -1, 4, 222⟩)) 99 = .ok 111 b ∧
      (b = true ↔
        marshalPropBin { CanonicalProposal.mk 32 10 0 (-1) 4 222 with timestamp := 99 } =
        marshalPropBin { CanonicalProposal.mk 32 10 0 (-1) 4 111 with timestamp := 99 }))
    ∧ (∃ b, (SignState.mk 10 0 2 none (some (.junk 1))
        (some (.voteBin ⟨1, 10, 0, 4, 111⟩)) "").onlyDifferByTimestamp
        (some (.voteBin ⟨1, 10, 0, 5, 222⟩)) 99 = .ok 111 b ∧
      (b = true ↔
        marshalVoteJson { CanonicalVote.mk 1 10 0 5 222 with timestamp := 99 } =
        marshalVoteJson { CanonicalVote.mk 1 10 0 4 111 with timestamp := 99 })) :=
  ⟨(onlyDifferByTimestamp_spec _ _ 99).1 ⟨32, 10, 0, -1, 4, 111⟩ ⟨32, 10, 0, -1, 4, 222⟩
      rfl rfl rfl,
   (onlyDifferByTimestamp_spec _ _ 99).2 ⟨1, 10, 0, 4, 111⟩ ⟨1, 10, 0, 5, 222⟩
      (Or.inl rfl) rfl rfl⟩

/-- C4: both timestamp-only comparison helpers panic when either the
stored or the candidate sign bytes fail to decode as the expected
canonical payload type. -/
theorem timestamp_check_decode_failure_panics (lb nb : Option Bytes) (now : Int) :
    ((unmarshalVoteOpt lb = none ∨ unmarshalVoteOpt nb = none) →
      checkVoteOnlyDifferByTimestamp lb nb now = .panicked)
    ∧ ((unmarshalProposalOpt lb = none ∨ unmarshalProposalOpt nb = none) →
      checkProposalOnlyDifferByTimestamp lb nb now = .panicked) := by
  constructor
  · rintro (h | h)
    · simp [checkVoteOnlyDifferByTimestamp, h]
    · cases hv : unmarshalVoteOpt lb <;>
        simp [checkVoteOnlyDifferByTimestamp, hv, h]
  · rintro (h | h)
    · simp [checkProposalOnlyDifferByTimestamp, h]
    · cases hp : unmarshalProposalOpt lb <;>
        simp [checkProposalOnlyDifferByTimestamp, hp, h]

/-- C4 witness: undecodable junk bytes drive both helpers to the panic
exit. -/
theorem timestamp_check_decode_failure_panics_witness :
    checkVoteOnlyDifferByTimestamp (some (.junk 0)) (some (.junk 1)) 7 = .panicked
    ∧ checkProposalOnlyDifferByTimestamp (some (.junk 0)) (some (.junk 1)) 7 = .panicked :=
  ⟨(timestamp_check_decode_failure_panics _ _ 7).1 (Or.inl rfl),
   (timestamp_check_decode_failure_panics _ _ 7).2 (Or.inl rfl)⟩

/-- C5 counterexample: the claim says `UnpackHRS` attempts the vote
decoding first and falls back to the proposal decoding.  On a byte
string that decodes both as a prevote at (5, 6) and as a proposal at
(7, 8) — the two encodings are not prefix-free-compatible — the vote
decoding succeeds, yet `UnpackHRS` answers with the proposal's
(7, 8, propose) rather than the vote's (5, 6, prevote): the code tries
the proposal decoding first. -/
theorem unpackHRS_vote_first_counterexample :
    unmarshalVote (.bothBin ⟨1, 5, 6, 0, 0⟩ ⟨32, 7, 8, -1, 0, 0⟩) = some ⟨1, 5, 6, 0, 0⟩
    ∧ UnpackHRS (.bothBin ⟨1, 5, 6, 0, 0⟩ ⟨32, 7, 8, -1, 0, 0⟩) = .ok 7 8 1
    ∧ UnpackHRS (.bothBin ⟨1, 5, 6, 0, 0⟩ ⟨32, 7, 8, -1, 0, 0⟩) ≠ .ok 5 6 2 := by
  refine ⟨rfl, by decide, by decide⟩

/-- C5 (amended): `UnpackHRS` attempts to decode the sign bytes as a
canonical proposal first and, only if that fails, as a canonical vote;
it returns an error exactly when both decodings fail. -/
theorem unpackHRS_proposal_first (b : Bytes) :
    (∀ p, unmarshalProposal b = some p →
      UnpackHRS b = .ok p.height p.round stepPropose)
    ∧ (∀ v s, unmarshalProposal b = none → unmarshalVote b = some v →
      CanonicalVoteToStep v = .ok s → UnpackHRS b = .ok v.height v.round s)
    ∧ (UnpackHRS b = .err ↔ (unmarshalProposal b = none ∧ unmarshalVote b = none)) := by
  refine ⟨?_, ?_, ?_⟩
  · intro p hp
    simp [UnpackHRS, hp]
  · intro v s hp hv hstep
    simp [UnpackHRS, hp, hv, hstep]
  · cases b <;> simp only [UnpackHRS, unmarshalProposal, unmarshalVote] <;>
      try simp
    all_goals (rename_i v; cases hstep : CanonicalVoteToStep v <;> simp [hstep])

/-- C5 witness: the amended theorem applied to a pure proposal encoding
and to a pure precommit-vote encoding. -/
theorem unpackHRS_proposal_first_witness :
    UnpackHRS (.propBin ⟨32, 7, 8, -1, 0, 0⟩) = .ok 7 8 stepPropose
    ∧ UnpackHRS (.voteBin ⟨2, 9, 4, 0, 0⟩) = .ok 9 4 stepPrecommit :=
  ⟨(unpackHRS_proposal_first _).1 ⟨32, 7, 8, -1, 0, 0⟩ rfl,
   (unpackHRS_proposal_first _).2.1 ⟨2, 9, 4, 0, 0⟩ stepPrecommit rfl rfl (by decide)⟩

/-- C6: on an established connection, a failure of the underlying
validator on a get-pubkey, sign-vote or sign-proposal request produces a
response carrying a structured error with code 0 and the error text as
description; the connection is dropped exactly when reading or writing a
framed message fails — for every request, including ones whose handling
erred, the connection is kept iff the write succeeded. -/
theorem remote_signer_error_handling (pv : PrivValidator) (chainID : String)
    (writeOk : Bool) :
    (∀ e, pv.getPubKey = .error e →
      (loopIteration pv chainID (.ok .pubKeyRequest) writeOk).response =
        some (.pubKeyResponse none (some ⟨0, e⟩)))
    ∧ (∀ v e, pv.signVote chainID v = .error e →
      (loopIteration pv chainID (.ok (.signVoteRequest v)) writeOk).response =
        some (.signedVoteResponse none (some ⟨0, e⟩)))
    ∧ (∀ p e, pv.signProposal chainID p = .error e →
      (loopIteration pv chainID (.ok (.signProposalRequest p)) writeOk).response =
        some (.signedProposalResponse none (some ⟨0, e⟩)))
    ∧ (∀ req, (loopIteration pv chainID (.ok req) writeOk).connKept = writeOk)
    ∧ (loopIteration pv chainID .ioerr writeOk).connKept = false := by
  refine ⟨?_, ?_, ?_, ?_, rfl⟩
  · intro e he; simp [loopIteration, handleRequest, he]
  · intro v e he; simp [loopIteration, handleRequest, he]
  · intro p e he; simp [loopIteration, handleRequest, he]
  · intro req; cases req <;> rfl

/-- C6 witness: a validator whose three operations all fail, handled on a
connection whose write succeeds. -/
theorem remote_signer_error_handling_witness :
    ((loopIteration ⟨.error "e1", fun _ _ => .error "e2", fun _ _ => .error "e3"⟩
        "chain" (.ok .pubKeyRequest) true).response =
      some (.pubKeyResponse none (some ⟨0, "e1"⟩)))
    ∧ ((loopIteration ⟨.error "e1", fun _ _ => .error "e2", fun _ _ => .error "e3"⟩
        "chain" (.ok (.signVoteRequest 4)) true).response =
      some (.signedVoteResponse none (some ⟨0, "e2"⟩)))
    ∧ ((loopIteration ⟨.error "e1", fun _ _ => .error "e2", fun _ _ => .error "e3"⟩
        "chain" (.ok (.signVoteRequest 4)) true).connKept = true) :=
  ⟨(remote_signer_error_handling _ "chain" true).1 "e1" rfl,
   (remote_signer_error_handling _ "chain" true).2.1 4 "e2" rfl,
   (remote_signer_error_handling _ "chain" true).2.2.2.1 (.signVoteRequest 4)⟩

/-- C7: `Save` panics when the file path is unset or the atomic write
fails; otherwise it performs exactly one atomic temp-file write of the
serialized state to its path with permission bits 0600; and the written
contents determine every persisted field of the state (the full state is
persisted, so no partial update is observable). -/
theorem signState_save_spec (ss : SignState) (writeOk : Bool) :
    (ss.filePath ≠ "" → writeOk = true →
      ss.save writeOk = .wrote ss.filePath (encodeSignState ss) 0o600)
    ∧ (ss.filePath = "" → ss.save writeOk = .panicked)
    ∧ (writeOk = false → ss.save writeOk = .panicked)
    ∧ (∀ t : SignState, encodeSignState ss = encodeSignState t →
      ss.height = t.height ∧ ss.round = t.round ∧ ss.step = t.step ∧
      ss.ephemeralPublic = t.ephemeralPublic ∧ ss.signature = t.signature ∧
      ss.signBytes = t.signBytes) := by
  refine ⟨?_, ?_, ?_, ?_⟩
  · intro hpath hw; simp [SignState.save, hpath, hw]
  · intro hpath; simp [SignState.save, hpath]
  · intro hw; subst hw; simp [SignState.save]
  · intro t ht
    have h1 := congrArg PersistedSignState.height ht
    have h2 := congrArg PersistedSignState.round ht
    have h3 := congrArg PersistedSignState.step ht
    have h4 := congrArg PersistedSignState.ephemeralPublic ht
    have h5 := congrArg PersistedSignState.signature ht
    have h6 := congrArg PersistedSignState.signBytes ht
    exact ⟨h1, h2, h3, h4, h5, h6⟩

/-- C7 witness: a concrete state saved to a set path with a succeeding
write, and the same state with the path unset panicking. -/
theorem signState_save_spec_witness :
    (SignState.mk 3 1 2 none (some (.junk 9)) (some (.junk 8)) "state.json").save true =
      .wrote "state.json"
        (encodeSignState (SignState.mk 3 1 2 none (some (.junk 9)) (some (.junk 8)) "state.json"))
        0o600
    ∧ (SignState.mk 3 1 2 none (some (.junk 9)) (some (.junk 8)) "").save true = .panicked :=
  ⟨(signState_save_spec _ true).1 (by simp) rfl,
   (signState_save_spec _ true).2.1 rfl⟩

/-- Parsing an order-preserving PKCS#1 marshalling of a peer-key list
recovers the list. -/
theorem parseAllPubKeys_map (l : List RSAPublicKey) :
    parseAllPubKeys (l.map marshalPKCS1Public) = some l := by
  induction l with
  | nil => rfl
  | cons k rest ih =>
    simp [parseAllPubKeys, marshalPKCS1Public, parsePKCS1Public, ih]

/-- C8: unmarshalling the JSON produced by `CosignerKey.MarshalJSON`
yields a `CosignerKey` equal to the original field for field — the RSA
keys travel as PKCS#1 DER, the validator public key in its encoded form
(protobuf in one revision, amino in the other), and the ordered peer-key
list is preserved — in both revisions of the cosigner-key file. -/
theorem cosignerKey_roundtrip (k : CosignerKey) :
    (CosignerKey.marshalJSONProto k).bind CosignerKey.unmarshalJSONProto = some k
    ∧ (CosignerKey.marshalJSONAmino k).bind CosignerKey.unmarshalJSONAmino = some k := by
  obtain ⟨pk, share, rsa, i, peers⟩ := k
  constructor
  · simp [CosignerKey.marshalJSONProto, CosignerKey.unmarshalJSONProto,
      marshalPKCS1Private, parsePKCS1Private, protoMarshalPubKey,
      protoUnmarshalPubKey, parseAllPubKeys_map]
  · simp [CosignerKey.marshalJSONAmino, CosignerKey.unmarshalJSONAmino,
      marshalPKCS1Private, parsePKCS1Private, aminoMarshalPubKey,
      aminoUnmarshalPubKey, parseAllPubKeys_map]

/-- A configured cosigner with an ID outside `[1..n]` makes the
validation loop report a bad ID. -/
theorem firstBadCosignerID_some_of_mem (cosigners : List CosignerConfig) (n : Nat)
    (h : ∃ c ∈ cosigners, c.id < 1 ∨ c.id > (n : Int)) :
    (firstBadCosignerID cosigners n).isSome = true := by
  induction cosigners with
  | nil => simp at h
  | cons c rest ih =>
    rw [firstBadCosignerID]
    by_cases hc : c.id < 1 ∨ c.id > (n : Int)
    · simp [hc]
    · simp only [hc, if_false]
      rcases h with ⟨d, hd, hbad⟩
      rcases List.mem_cons.mp hd with rfl | hd
      · exact absurd hbad hc
      · exact ih ⟨d, hd, hbad⟩

/-- C9: startup terminates the process with no service started whenever
the chain id is empty, the mode is neither `single` nor `mpc`, or the
mode is `mpc` and the threshold is zero, the listen address is empty, or
(whenever the key file loads) some configured cosigner ID lies outside
`[1..N]` for `N` the number of cosigner keys. -/
theorem startup_config_validation (config : Config)
    (keyLoad : Except String CosignerKey)
    (signStateLoad shareLoad : Except String SignState)
    (hbad : config.chainID = ""
      ∨ (config.mode ≠ "single" ∧ config.mode ≠ "mpc")
      ∨ (config.mode = "mpc" ∧
          (config.cosignerThreshold = 0 ∨ config.listenAddress = "" ∨
           (∀ key, keyLoad = .ok key →
             ∃ c ∈ config.cosigners,
               c.id < 1 ∨ c.id > (key.cosignerKeys.length : Int))))) :
    (mainStartup config keyLoad signStateLoad shareLoad).terminatedBeforeServing = true := by
  unfold mainStartup
  rcases hbad with hc | ⟨hm1, hm2⟩ | ⟨hm, hrest⟩
  · simp [hc, MainOutcome.terminatedBeforeServing]
  · split_ifs <;> simp_all [MainOutcome.terminatedBeforeServing]
  · have hms : config.mode ≠ "single" := by rw [hm]; decide
    rcases hrest with ht | hl | hids
    · split_ifs <;> simp_all [MainOutcome.terminatedBeforeServing]
    · split_ifs <;> simp_all [MainOutcome.terminatedBeforeServing]
    · by_cases hc0 : config.chainID = ""
      · simp [hc0, MainOutcome.terminatedBeforeServing]
      rw [if_neg hc0, if_neg hms, if_pos hm]
      by_cases ht0 : config.cosignerThreshold = 0
      · simp [ht0, MainOutcome.terminatedBeforeServing]
      rw [if_neg ht0]
      by_cases hl0 : config.listenAddress = ""
      · simp [hl0, MainOutcome.terminatedBeforeServing]
      rw [if_neg hl0]
      match keyLoad, hids with
      | .error e, _ => simp [MainOutcome.terminatedBeforeServing]
      | .ok key, hids =>
        cases signStateLoad with
        | error e => simp [MainOutcome.terminatedBeforeServing]
        | ok s1 =>
          cases shareLoad with
          | error e => simp [MainOutcome.terminatedBeforeServing]
          | ok s2 =>
            have hsome := firstBadCosignerID_some_of_mem config.cosigners
              key.cosignerKeys.length (hids key rfl)
            simp only []
            cases hfb : firstBadCosignerID config.cosigners key.cosignerKeys.length with
            | none => rw [hfb] at hsome; simp at hsome
            | some badID => simp [hfb, MainOutcome.terminatedBeforeServing]

/-- C9 witness: the theorem applied to concrete bad configurations — an
empty chain id, an unknown mode, and an mpc configuration whose only
cosigner has ID 3 while the key file holds two cosigner keys. -/
theorem startup_config_validation_witness :
    ((mainStartup (Config.mk "single" "k" "d" "" 0 "" [] [])
        (.error "no key") (.ok (emptySignState "p")) (.ok (emptySignState "q"))
        ).terminatedBeforeServing = true)
    ∧ ((mainStartup (Config.mk "solo" "k" "d" "chain" 0 "" [] [])
        (.error "no key") (.ok (emptySignState "p")) (.ok (emptySignState "q"))
        ).terminatedBeforeServing = true)
    ∧ ((mainStartup (Config.mk "mpc" "k" "d" "chain" 2 "tcp" [⟨3, "a"⟩] [])
        (.ok (CosignerKey.mk ⟨0⟩ [] ⟨0⟩ 1 [⟨1⟩, ⟨2⟩]))
        (.ok (emptySignState "p")) (.ok (emptySignState "q"))
        ).terminatedBeforeServing = true) :=
  ⟨startup_config_validation _ _ _ _ (Or.inl rfl),
   startup_config_validation _ _ _ _ (Or.inr (Or.inl (by simp))),
   startup_config_validation _ _ _ _ (Or.inr (Or.inr ⟨rfl, Or.inr (Or.inr
     (fun key hkey => by
        cases hkey
        exact ⟨⟨3, "a"⟩, by simp, Or.inr (by simp)⟩))⟩))⟩

/-- C10: `LoadOrCreateSignState` never returns a non-nil error; when the
underlying load fails (missing, unreadable or unparsable file) and the
save goes through, it returns the empty watermark state — height 0,
round 0, step 0, no signature, no sign bytes — and persists exactly that
empty state to the path; when the load succeeds it returns the loaded
state untouched. -/
theorem loadOrCreateSignState_resets_watermark (filepath : String)
    (loadResult : Except String SignState) (writeOk : Bool) :
    (∀ s e p, LoadOrCreateSignState filepath loadResult writeOk ≠ .returned s (some e) p)
    ∧ (∀ err, loadResult = .error err → filepath ≠ "" → writeOk = true →
      LoadOrCreateSignState filepath loadResult writeOk =
        .returned (emptySignState filepath) none
          (some (.wrote filepath (encodeSignState (emptySignState filepath)) 0o600)))
    ∧ (∀ s, loadResult = .ok s →
      LoadOrCreateSignState filepath loadResult writeOk = .returned s none none)
    ∧ ((emptySignState filepath).height = 0 ∧ (emptySignState filepath).round = 0 ∧
       (emptySignState filepath).step = 0 ∧ (emptySignState filepath).signature = none ∧
       (emptySignState filepath).signBytes = none) := by
  refine ⟨?_, ?_, ?_, rfl, rfl, rfl, rfl, rfl⟩
  · intro s e p
    cases loadResult with
    | ok existing => simp [LoadOrCreateSignState]
    | error msg =>
      simp only [LoadOrCreateSignState]
      cases hs : (emptySignState filepath).save writeOk <;> simp
  · intro err herr hpath hw
    subst herr hw
    simp [LoadOrCreateSignState, SignState.save, emptySignState, hpath]
  · intro s hs
    subst hs
    rfl

/-- C10 witness: a failed load over a concrete path with a succeeding
save returns the empty watermark with a nil error and persists it; a
successful load passes the state through. -/
theorem loadOrCreateSignState_resets_watermark_witness :
    LoadOrCreateSignState "state.json" (.error "corrupt") true =
      .returned (emptySignState "state.json") none
        (some (.wrote "state.json" (encodeSignState (emptySignState "state.json")) 0o600))
    ∧ LoadOrCreateSignState "state.json"
        (.ok (SignState.mk 9 9 3 none none none "state.json")) true =
      .returned (SignState.mk 9 9 3 none none none "state.json") none none :=
  ⟨(loadOrCreateSignState_resets_watermark "state.json" _ true).2.1 "corrupt" rfl
     (by simp) rfl,
   (loadOrCreateSignState_resets_watermark "state.json" _ true).2.2.1 _ rfl⟩

end Signer
